import Mathlib

/-!
# Verification of the PromptPay QR payload encoder (`src/qr_payment.py`)

Shallow embedding of the `QRPaymentManager` class of `src/qr_payment.py`:
the payload encoder `_create_promptpay_payload`, its helpers
`_format_promptpay_id` and `_calculate_crc16`, and the stateful
`cancel_payment` operation.

Modelling conventions:
* Python `str` values are Lean `String`s; Python `bytes` values are
  `List Nat` with each element `< 256`.
* The transaction amount is a Python `float` in the source; the spec's
  input contract restricts amounts to non-negative currency values with
  at most two fractional digits, for which Python's `f"{amount:.2f}"`
  prints the exact two-decimal form.  We therefore model the amount as a
  natural number of hundredths (`amountCents`), and `formatAmount`
  models `f"{amount:.2f}"` on that domain (`12550` renders `"125.50"`).
* `str.encode('utf-8')` is modelled by `strBytes`; `bytes.decode('utf-8')`
  by `utf8Decode`, which returns `none` exactly where Python raises
  `UnicodeDecodeError` (in particular on a byte slice that cuts a
  multi-byte code point in half).
* The `try/except` wrapper of `_create_promptpay_payload` is modelled by
  splitting the function in two: `encodePayloadE` is the body (lines
  79-133), returning `none` where the body raises, and
  `createPromptpayPayload` is the whole method including the handler
  that logs and returns `""` (lines 135-137).
-/

set_option maxRecDepth 100000

/-! ## CRC16 (`_calculate_crc16`, lines 151-165) -/

/-- One inner round of the source's CRC loop: shift left, conditionally
XOR with the polynomial `0x1021`, then truncate to 16 bits
(`crc &= 0xFFFF`). -/
def crc16Step (crc : Nat) : Nat :=
  (if crc &&& 0x8000 ≠ 0 then (crc <<< 1) ^^^ 0x1021 else crc <<< 1) &&& 0xFFFF

/-- Processing of one byte: `crc ^= (byte << 8)` followed by the
source's `for _ in range(8)` loop, unrolled. -/
def crc16Byte (crc b : Nat) : Nat :=
  crc16Step (crc16Step (crc16Step (crc16Step
    (crc16Step (crc16Step (crc16Step (crc16Step (crc ^^^ (b <<< 8)))))))))

/-- `_calculate_crc16` over a byte sequence, initial value `0xFFFF`,
no final XOR. -/
def crc16 (bytes : List Nat) : Nat :=
  bytes.foldl crc16Byte 0xFFFF

/-! ## UTF-8 encoding and decoding -/

/-- UTF-8 encoding of a single code point (Python `str.encode('utf-8')`
acts code point by code point; `Char` excludes surrogates). -/
def utf8Bytes (c : Char) : List Nat :=
  let n := c.toNat
  if n < 0x80 then [n]
  else if n < 0x800 then
    [0xC0 ||| (n >>> 6), 0x80 ||| (n &&& 0x3F)]
  else if n < 0x10000 then
    [0xE0 ||| (n >>> 12), 0x80 ||| ((n >>> 6) &&& 0x3F), 0x80 ||| (n &&& 0x3F)]
  else
    [0xF0 ||| (n >>> 18), 0x80 ||| ((n >>> 12) &&& 0x3F),
     0x80 ||| ((n >>> 6) &&& 0x3F), 0x80 ||| (n &&& 0x3F)]

/-- `s.encode('utf-8')` as a byte list. -/
def strBytes (s : String) : List Nat :=
  (s.data.map utf8Bytes).flatten

/-- Whether a byte is a UTF-8 continuation byte (`0x80..0xBF`). -/
def isCont (b : Nat) : Bool :=
  0x80 ≤ b && b < 0xC0

/-- Strict UTF-8 decoding of a byte list to a code-point list, as
Python's `bytes.decode('utf-8')`: `none` models `UnicodeDecodeError`
(stray continuation byte, truncated sequence, overlong form, or
surrogate). -/
def utf8Decode : List Nat → Option (List Char)
  | [] => some []
  | b :: rest =>
    if b < 0x80 then
      (utf8Decode rest).map (Char.ofNat b :: ·)
    else if b < 0xC2 then none
    else if b < 0xE0 then
      match rest with
      | b2 :: rest2 =>
        if isCont b2 then
          (utf8Decode rest2).map (Char.ofNat (((b - 0xC0) <<< 6) + (b2 - 0x80)) :: ·)
        else none
      | [] => none
    else if b < 0xF0 then
      match rest with
      | b2 :: b3 :: rest3 =>
        if isCont b2 && isCont b3 && (b ≠ 0xE0 || 0xA0 ≤ b2) && (b ≠ 0xED || b2 < 0xA0) then
          (utf8Decode rest3).map
            (Char.ofNat (((b - 0xE0) <<< 12) + ((b2 - 0x80) <<< 6) + (b3 - 0x80)) :: ·)
        else none
      | _ => none
    else if b < 0xF5 then
      match rest with
      | b2 :: b3 :: b4 :: rest4 =>
        if isCont b2 && isCont b3 && isCont b4 && (b ≠ 0xF0 || 0x90 ≤ b2) && (b ≠ 0xF4 || b2 < 0x90) then
          (utf8Decode rest4).map
            (Char.ofNat (((b - 0xF0) <<< 18) + ((b2 - 0x80) <<< 12) +
              ((b3 - 0x80) <<< 6) + (b4 - 0x80)) :: ·)
        else none
      | _ => none
    else none

/-! ## Formatting helpers -/

/-- Python's `f"{n:02d}"`: decimal, zero-padded on the left to at least
two digits (numbers of three or more digits print in full). -/
def twoDigits (n : Nat) : String :=
  if n < 10 then "0" ++ toString n else toString n

/-- Python's `f"{amount:.2f}"`, with the amount modelled as a natural
number of hundredths of the currency unit (see the header note on
floats). -/
def formatAmount (cents : Nat) : String :=
  toString (cents / 100) ++ "." ++ twoDigits (cents % 100)

/-- One hexadecimal digit, uppercase, of a value `< 16`. -/
def hexDigitChar (n : Nat) : Char :=
  if n < 10 then Char.ofNat (48 + n) else Char.ofNat (55 + n)

/-- Python's `f"{crc:04X}"` for `crc < 0x10000` (which `crc16` always
satisfies, see `crc16_lt`): four uppercase hexadecimal digits,
zero-padded. -/
def hexUpper4 (n : Nat) : String :=
  String.mk [hexDigitChar (n / 4096 % 16), hexDigitChar (n / 256 % 16),
             hexDigitChar (n / 16 % 16), hexDigitChar (n % 16)]

/-! ## Merchant identifier normalization (`_format_promptpay_id`, lines 139-149) -/

/-- `''.join(filter(str.isdigit, promptpay_id))`.  (`Char.isDigit`
covers the ASCII digits; Python's `str.isdigit` additionally accepts
some non-ASCII Unicode digit code points, which never occur in the
identifiers at issue.) -/
def cleanDigits (s : String) : String :=
  String.mk (s.data.filter Char.isDigit)

/-- `_format_promptpay_id`: 10-digit ids get the `0066` prefix in place
of the leading digit, 13-digit ids pass through, and all other ids are
left-justified to 13 with `'0'` (Python's `ljust` never truncates). -/
def formatPromptpayId (s : String) : String :=
  let clean := cleanDigits s
  if clean.length = 10 then "0066" ++ String.mk (clean.data.drop 1)
  else if clean.length = 13 then clean
  else clean ++ String.mk (List.replicate (13 - clean.length) '0')

/-! ## Manager state (`QRPaymentManager.__init__` and the payment dicts) -/

/-- One entry of `self.pending_payments` (the dict built in
`generate_promptpay_qr`, lines 48-57, plus the keys added later by
`verify_payment` and `cancel_payment`). -/
structure PaymentRecord where
  paymentId : String
  amount : Nat
  ref1 : Option String
  ref2 : Option String
  payload : String
  status : String
  createdAt : String
  expiresAt : String
  verifiedAt : Option String := none
  slipImage : Option String := none
  cancelledAt : Option String := none
deriving DecidableEq, Repr

/-- The mutable state of a `QRPaymentManager` instance (lines 12-18). -/
structure QRPaymentManagerState where
  promptpayId : String
  merchantName : String
  pendingPayments : List (String × PaymentRecord)
deriving DecidableEq, Repr

/-- The state right after `__init__`: `promptpay_id = "0123456789"`,
`merchant_name = "GOOD SALE POS"`, no pending payments. -/
def initState : QRPaymentManagerState :=
  { promptpayId := "0123456789", merchantName := "GOOD SALE POS", pendingPayments := [] }

/-! ## The payload encoder (`_create_promptpay_payload`, lines 77-137) -/

/-- The processing of one optional reference (lines 113-118, the two
branches share this shape with tags `"01"` and `"02"`): Python's
`if ref:` skips `None` and the empty string; otherwise the reference is
UTF-8-encoded, sliced to 25 bytes, and decoded back (which raises —
here `none` — when the slice cuts a code point).  The result is the
list of emitted sub-fields (empty or a singleton). -/
def refSubfield (tag : String) (r : Option String) : Option (List String) :=
  match r with
  | none => some []
  | some s =>
    if s = "" then some []
    else
      let bs := (strBytes s).take 25
      match utf8Decode bs with
      | none => none
      | some cs => some [tag ++ (twoDigits bs.length ++ String.mk cs)]

/-- The `payload_parts` list assembled by lines 81-122, in source
order; `none` models an exception inside the body (the only raising
operation for string inputs is the `bytes.decode` after truncation). -/
def payloadParts (st : QRPaymentManagerState) (amountCents : Nat)
    (ref1 ref2 : Option String) : Option (List String) :=
  let merchantInfo := "0016A000000677010111" ++ formatPromptpayId st.promptpayId
  let nameBytes := (strBytes st.merchantName).take 25
  match utf8Decode nameBytes with
  | none => none
  | some nameCs =>
    match refSubfield "01" ref1 with
    | none => none
    | some f1 =>
      match refSubfield "02" ref2 with
      | none => none
      | some f2 =>
        let additionalData := f1 ++ f2
        some (["000201", "010212",
               "29" ++ (twoDigits merchantInfo.length ++ merchantInfo),
               "52044814", "5303764"]
          ++ (if amountCents > 0 then
                ["54" ++ (twoDigits (formatAmount amountCents).length
                           ++ formatAmount amountCents)]
              else [])
          ++ ["5802TH",
              "59" ++ (twoDigits nameBytes.length ++ String.mk nameCs)]
          ++ (if additionalData.isEmpty then []
              else ["62" ++ (twoDigits (String.join additionalData).length
                              ++ String.join additionalData)]))

/-- The body of `_create_promptpay_payload` (lines 79-133):
join the parts, append `"6304"`, compute CRC16 over the UTF-8 bytes of
that string, and append the checksum as four uppercase hex digits.
`none` models the body raising. -/
def encodePayloadE (st : QRPaymentManagerState) (amountCents : Nat)
    (ref1 ref2 : Option String) : Option String :=
  match payloadParts st amountCents ref1 ref2 with
  | none => none
  | some parts =>
    let w := String.join parts ++ "6304"
    some (w ++ hexUpper4 (crc16 (strBytes w)))

/-- The whole of `_create_promptpay_payload` including its
`try/except` handler (lines 135-137), which catches any exception,
logs it, and returns `""`. -/
def createPromptpayPayload (st : QRPaymentManagerState) (amountCents : Nat)
    (ref1 ref2 : Option String) : String :=
  match encodePayloadE st amountCents ref1 ref2 with
  | some p => p
  | none => ""

/-! ## `cancel_payment` (lines 306-338) -/

/-- The dict returned by `cancel_payment`: `{'success': ..., 'error':
...}` on failure, `{'success': True, 'payment_id': ..., 'status':
'cancelled'}` on success. -/
structure CancelResult where
  success : Bool
  error : Option String := none
  paymentId : Option String := none
  status : Option String := none
deriving DecidableEq, Repr

/-- `payment_id in self.pending_payments` / dict lookup. -/
def alookup (k : String) : List (String × PaymentRecord) → Option PaymentRecord
  | [] => none
  | (k', v) :: rest => if k = k' then some v else alookup k rest

/-- In-place update of the record stored under `k` (Python mutates the
dict entry object). -/
def aupdate (k : String) (v : PaymentRecord) :
    List (String × PaymentRecord) → List (String × PaymentRecord)
  | [] => []
  | (k', v') :: rest =>
    if k = k' then (k', v) :: rest else (k', v') :: aupdate k v rest

/-- `cancel_payment`: unknown ids and completed payments are rejected
without touching the store; otherwise the record's status becomes
`"cancelled"` and `cancelled_at` is stamped with the current time
(passed in as `now`, since the source reads the wall clock). -/
def cancelPayment (st : QRPaymentManagerState) (pid : String) (now : String) :
    CancelResult × QRPaymentManagerState :=
  match alookup pid st.pendingPayments with
  | none => ({ success := false, error := some "Payment ID not found" }, st)
  | some pd =>
    if pd.status = "completed" then
      ({ success := false, error := some "Cannot cancel completed payment" }, st)
    else
      let pd' := { pd with status := "cancelled", cancelledAt := some now }
      ({ success := true, paymentId := some pid, status := some "cancelled" },
       { st with pendingPayments := aupdate pid pd' st.pendingPayments })

/-! ## Derived predicates used by the claims -/

/-- Uppercase hexadecimal digit. -/
def isUpperHexChar (c : Char) : Bool :=
  ('0' ≤ c && c ≤ '9') || ('A' ≤ c && c ≤ 'F')

/-- The round-trip checksum law: the last four characters are uppercase
hex digits, and re-running CRC16 over everything before them reproduces
exactly those four characters. -/
def checksumLaw (p : String) : Prop :=
  (p.data.drop (p.data.length - 4)).all isUpperHexChar = true ∧
  hexUpper4 (crc16 (strBytes (String.mk (p.data.take (p.data.length - 4)))))
    = String.mk (p.data.drop (p.data.length - 4))

/-- Substring test on character lists (needle, haystack). -/
def prefixOf : List Char → List Char → Bool
  | [], _ => true
  | _ :: _, [] => false
  | a :: as, b :: bs => a = b && prefixOf as bs

/-- `needle` occurs contiguously inside `haystack`. -/
def infixOf (needle : List Char) : List Char → Bool
  | [] => needle.isEmpty
  | b :: rest => prefixOf needle (b :: rest) || infixOf needle rest

/-! ## String plumbing lemmas -/

theorem strExt {a b : String} (h : a.data = b.data) : a = b :=
  congrArg String.mk h

theorem strAppend_data (a b : String) : (a ++ b).data = a.data ++ b.data := by
  cases a; cases b; rfl

theorem strAppend_assoc (a b c : String) : (a ++ b) ++ c = a ++ (b ++ c) := by
  apply strExt
  simp [strAppend_data]

theorem strEmpty_append (s : String) : "" ++ s = s := by
  apply strExt
  simp [strAppend_data]

theorem strAppend_empty (s : String) : s ++ "" = s := by
  apply strExt
  simp [strAppend_data]

theorem strMk_data (s : String) : String.mk s.data = s := by
  cases s; rfl

theorem strLength_append (a b : String) : (a ++ b).length = a.length + b.length := by
  show (a ++ b).data.length = a.data.length + b.data.length
  rw [strAppend_data, List.length_append]

theorem strJoin_acc (l : List String) :
    ∀ a : String, l.foldl (· ++ ·) a = a ++ l.foldl (· ++ ·) "" := by
  induction l with
  | nil => intro a; simp [List.foldl, strAppend_empty]
  | cons b t ih =>
    intro a
    simp only [List.foldl]
    rw [ih (a ++ b), ih ("" ++ b), strEmpty_append, strAppend_assoc]

theorem strJoin_cons (s : String) (l : List String) :
    String.join (s :: l) = s ++ String.join l := by
  show (s :: l).foldl (· ++ ·) "" = s ++ l.foldl (· ++ ·) ""
  simp only [List.foldl]
  rw [strJoin_acc l ("" ++ s), strEmpty_append]

/-- An element of the joined parts list occurs contiguously in the
joined string followed by any suffix. -/
theorem join_mem_split (x : String) (parts : List String) (hx : x ∈ parts) :
    ∀ suf : String, ∃ pre post, String.join parts ++ suf = pre ++ (x ++ post) := by
  induction parts with
  | nil => cases hx
  | cons y t ih =>
    intro suf
    rcases List.mem_cons.mp hx with h | h
    · subst h
      exact ⟨"", String.join t ++ suf, by
        rw [strJoin_cons, strAppend_assoc, strEmpty_append]⟩
    · obtain ⟨pre, post, hp⟩ := ih h suf
      exact ⟨y ++ pre, post, by
        rw [strJoin_cons, strAppend_assoc, hp, strAppend_assoc]⟩

/-! ## Facts about the checksum and its rendering -/

theorem crc16Step_lt (crc : Nat) : crc16Step crc < 65536 := by
  have h : crc16Step crc ≤ 65535 := by
    unfold crc16Step
    exact Nat.and_le_right
  omega

theorem crc16Byte_lt (crc b : Nat) : crc16Byte crc b < 65536 := by
  unfold crc16Byte
  exact crc16Step_lt _

theorem crc16_fold_lt :
    ∀ (l : List Nat) (init : Nat), init < 65536 → l.foldl crc16Byte init < 65536
  | [], _, h => h
  | b :: t, init, _ => crc16_fold_lt t (crc16Byte init b) (crc16Byte_lt init b)

/-- `_calculate_crc16` always returns a 16-bit value, so the source's
`f"{crc:04X}"` is exactly `hexUpper4`. -/
theorem crc16_lt (bytes : List Nat) : crc16 bytes < 65536 :=
  crc16_fold_lt bytes 0xFFFF (by decide)

theorem hexDigitChar_upperHex : ∀ m < 16, isUpperHexChar (hexDigitChar m) = true := by
  decide

theorem hexUpper4_data (n : Nat) :
    (hexUpper4 n).data = [hexDigitChar (n / 4096 % 16), hexDigitChar (n / 256 % 16),
                          hexDigitChar (n / 16 % 16), hexDigitChar (n % 16)] := rfl

theorem hexUpper4_all_upperHex (n : Nat) :
    (hexUpper4 n).data.all isUpperHexChar = true := by
  have h : ∀ k : Nat, isUpperHexChar (hexDigitChar (k % 16)) = true :=
    fun k => hexDigitChar_upperHex _ (Nat.mod_lt k (by decide))
  simp [hexUpper4_data, h]

/-- Appending the rendered CRC of a string to that string always
satisfies the round-trip checksum law. -/
theorem checksumLaw_append (w : String) :
    checksumLaw (w ++ hexUpper4 (crc16 (strBytes w))) := by
  have hdata : (w ++ hexUpper4 (crc16 (strBytes w))).data
      = w.data ++ (hexUpper4 (crc16 (strBytes w))).data := strAppend_data _ _
  have hlen4 : (hexUpper4 (crc16 (strBytes w))).data.length = 4 := rfl
  have hlen : (w ++ hexUpper4 (crc16 (strBytes w))).data.length = w.data.length + 4 := by
    rw [hdata, List.length_append, hlen4]
  have hsub : (w ++ hexUpper4 (crc16 (strBytes w))).data.length - 4 = w.data.length := by
    omega
  have hdrop : (w ++ hexUpper4 (crc16 (strBytes w))).data.drop
      ((w ++ hexUpper4 (crc16 (strBytes w))).data.length - 4)
      = (hexUpper4 (crc16 (strBytes w))).data := by
    rw [hsub, hdata, List.drop_left]
  have htake : (w ++ hexUpper4 (crc16 (strBytes w))).data.take
      ((w ++ hexUpper4 (crc16 (strBytes w))).data.length - 4) = w.data := by
    rw [hsub, hdata, List.take_left]
  refine ⟨?_, ?_⟩
  · rw [hdrop]
    exact hexUpper4_all_upperHex _
  · rw [htake, hdrop, strMk_data, strMk_data]

theorem strBytes_append (a b : String) :
    strBytes (a ++ b) = strBytes a ++ strBytes b := by
  unfold strBytes
  rw [strAppend_data, List.map_append, List.flatten_append]

theorem crc16_append (l1 l2 : List Nat) :
    crc16 (l1 ++ l2) = l2.foldl crc16Byte (crc16 l1) := by
  unfold crc16
  rw [List.foldl_append]

/-- Extending a CRC computation by a string suffix, used to evaluate
the checksum of a concrete payload in pieces. -/
theorem crc16_extend (a b : String) (k k' : Nat) (h : crc16 (strBytes a) = k)
    (h' : (strBytes b).foldl crc16Byte k = k') :
    crc16 (strBytes (a ++ b)) = k' := by
  rw [strBytes_append, crc16_append, h, h']

/-- Evaluation rule for `encodePayloadE` on concrete inputs, split into
pieces so each piece stays within kernel reduction limits. -/
theorem encodePayloadE_eq (st : QRPaymentManagerState) (a : Nat) (r1 r2 : Option String)
    (L : List String) (w p : String) (c : Nat)
    (hL : payloadParts st a r1 r2 = some L)
    (hw : String.join L ++ "6304" = w)
    (hc : crc16 (strBytes w) = c)
    (hp : w ++ hexUpper4 c = p) :
    encodePayloadE st a r1 r2 = some p := by
  unfold encodePayloadE
  rw [hL]
  show some ((String.join L ++ "6304")
    ++ hexUpper4 (crc16 (strBytes (String.join L ++ "6304")))) = some p
  rw [hw, hc, hp]

/-- C1: every payload produced by the encoding routine ends in four
uppercase hexadecimal digits, and re-running CRC16 (poly `0x1021`,
init `0xFFFF`, no final XOR, byte-wise MSB-first, 16-bit truncation)
over the payload minus those four characters reproduces them. -/
theorem c1_checksum_roundtrip (st : QRPaymentManagerState) (amountCents : Nat)
    (ref1 ref2 : Option String) (p : String)
    (h : encodePayloadE st amountCents ref1 ref2 = some p) : checksumLaw p := by
  unfold encodePayloadE at h
  cases hp : payloadParts st amountCents ref1 ref2 with
  | none => rw [hp] at h; exact absurd h (by simp)
  | some parts =>
    rw [hp] at h
    have h' : (String.join parts ++ "6304")
        ++ hexUpper4 (crc16 (strBytes (String.join parts ++ "6304"))) = p :=
      Option.some.inj h
    rw [← h']
    exact checksumLaw_append _

theorem crcW0 : crc16 (strBytes "00020101021229330016A00000067701011100661234567895204481453037645802TH5913GOOD SALE POS6304") = 2555 := by
  have e1 : crc16 (strBytes "000201010212") = 13354 := by decide
  have h2 : (strBytes "29330016A000").foldl crc16Byte 13354 = 47542 := by decide
  have e2 : crc16 (strBytes (("000201010212" : String) ++ "29330016A000")) = 47542 := crc16_extend _ _ _ _ e1 h2
  have h3 : (strBytes "000677010111").foldl crc16Byte 47542 = 20391 := by decide
  have e3 : crc16 (strBytes ((("000201010212" : String) ++ "29330016A000") ++ "000677010111")) = 20391 := crc16_extend _ _ _ _ e2 h3
  have h4 : (strBytes "006612345678").foldl crc16Byte 20391 = 33474 := by decide
  have e4 : crc16 (strBytes (((("000201010212" : String) ++ "29330016A000") ++ "000677010111") ++ "006612345678")) = 33474 := crc16_extend _ _ _ _ e3 h4
  have h5 : (strBytes "952044814530").foldl crc16Byte 33474 = 35491 := by decide
  have e5 : crc16 (strBytes ((((("000201010212" : String) ++ "29330016A000") ++ "000677010111") ++ "006612345678") ++ "952044814530")) = 35491 := crc16_extend _ _ _ _ e4 h5
  have h6 : (strBytes "37645802TH59").foldl crc16Byte 35491 = 9706 := by decide
  have e6 : crc16 (strBytes (((((("000201010212" : String) ++ "29330016A000") ++ "000677010111") ++ "006612345678") ++ "952044814530") ++ "37645802TH59")) = 9706 := crc16_extend _ _ _ _ e5 h6
  have h7 : (strBytes "13GOOD SALE ").foldl crc16Byte 9706 = 10755 := by decide
  have e7 : crc16 (strBytes ((((((("000201010212" : String) ++ "29330016A000") ++ "000677010111") ++ "006612345678") ++ "952044814530") ++ "37645802TH59") ++ "13GOOD SALE ")) = 10755 := crc16_extend _ _ _ _ e6 h7
  have h8 : (strBytes "POS6304").foldl crc16Byte 10755 = 2555 := by decide
  have e8 : crc16 (strBytes (((((((("000201010212" : String) ++ "29330016A000") ++ "000677010111") ++ "006612345678") ++ "952044814530") ++ "37645802TH59") ++ "13GOOD SALE ") ++ "POS6304")) = 2555 := crc16_extend _ _ _ _ e7 h8
  have hW : (((((((("000201010212" : String) ++ "29330016A000") ++ "000677010111") ++ "006612345678") ++ "952044814530") ++ "37645802TH59") ++ "13GOOD SALE ") ++ "POS6304") = "00020101021229330016A00000067701011100661234567895204481453037645802TH5913GOOD SALE POS6304" := by decide
  rw [← hW]
  exact e8

theorem crcW125 : crc16 (strBytes "00020101021229330016A00000067701011100661234567895204481453037645406125.505802TH5913GOOD SALE POS6304") = 16349 := by
  have e1 : crc16 (strBytes "000201010212") = 13354 := by decide
  have h2 : (strBytes "29330016A000").foldl crc16Byte 13354 = 47542 := by decide
  have e2 : crc16 (strBytes (("000201010212" : String) ++ "29330016A000")) = 47542 := crc16_extend _ _ _ _ e1 h2
  have h3 : (strBytes "000677010111").foldl crc16Byte 47542 = 20391 := by decide
  have e3 : crc16 (strBytes ((("000201010212" : String) ++ "29330016A000") ++ "000677010111")) = 20391 := crc16_extend _ _ _ _ e2 h3
  have h4 : (strBytes "006612345678").foldl crc16Byte 20391 = 33474 := by decide
  have e4 : crc16 (strBytes (((("000201010212" : String) ++ "29330016A000") ++ "000677010111") ++ "006612345678")) = 33474 := crc16_extend _ _ _ _ e3 h4
  have h5 : (strBytes "952044814530").foldl crc16Byte 33474 = 35491 := by decide
  have e5 : crc16 (strBytes ((((("000201010212" : String) ++ "29330016A000") ++ "000677010111") ++ "006612345678") ++ "952044814530")) = 35491 := crc16_extend _ _ _ _ e4 h5
  have h6 : (strBytes "37645406125.").foldl crc16Byte 35491 = 26127 := by decide
  have e6 : crc16 (strBytes (((((("000201010212" : String) ++ "29330016A000") ++ "000677010111") ++ "006612345678") ++ "952044814530") ++ "37645406125.")) = 26127 := crc16_extend _ _ _ _ e5 h6
  have h7 : (strBytes "505802TH5913").foldl crc16Byte 26127 = 51235 := by decide
  have e7 : crc16 (strBytes ((((((("000201010212" : String) ++ "29330016A000") ++ "000677010111") ++ "006612345678") ++ "952044814530") ++ "37645406125.") ++ "505802TH5913")) = 51235 := crc16_extend _ _ _ _ e6 h7
  have h8 : (strBytes "GOOD SALE PO").foldl crc16Byte 51235 = 23740 := by decide
  have e8 : crc16 (strBytes (((((((("000201010212" : String) ++ "29330016A000") ++ "000677010111") ++ "006612345678") ++ "952044814530") ++ "37645406125.") ++ "505802TH5913") ++ "GOOD SALE PO")) = 23740 := crc16_extend _ _ _ _ e7 h8
  have h9 : (strBytes "S6304").foldl crc16Byte 23740 = 16349 := by decide
  have e9 : crc16 (strBytes ((((((((("000201010212" : String) ++ "29330016A000") ++ "000677010111") ++ "006612345678") ++ "952044814530") ++ "37645406125.") ++ "505802TH5913") ++ "GOOD SALE PO") ++ "S6304")) = 16349 := crc16_extend _ _ _ _ e8 h9
  have hW : ((((((((("000201010212" : String) ++ "29330016A000") ++ "000677010111") ++ "006612345678") ++ "952044814530") ++ "37645406125.") ++ "505802TH5913") ++ "GOOD SALE PO") ++ "S6304") = "00020101021229330016A00000067701011100661234567895204481453037645406125.505802TH5913GOOD SALE POS6304" := by decide
  rw [← hW]
  exact e9

theorem crcWOrd : crc16 (strBytes "00020101021229330016A00000067701011100661234567895204481453037645802TH5913GOOD SALE POS62120108ORDER1236304") = 24639 := by
  have e1 : crc16 (strBytes "000201010212") = 13354 := by decide
  have h2 : (strBytes "29330016A000").foldl crc16Byte 13354 = 47542 := by decide
  have e2 : crc16 (strBytes (("000201010212" : String) ++ "29330016A000")) = 47542 := crc16_extend _ _ _ _ e1 h2
  have h3 : (strBytes "000677010111").foldl crc16Byte 47542 = 20391 := by decide
  have e3 : crc16 (strBytes ((("000201010212" : String) ++ "29330016A000") ++ "000677010111")) = 20391 := crc16_extend _ _ _ _ e2 h3
  have h4 : (strBytes "006612345678").foldl crc16Byte 20391 = 33474 := by decide
  have e4 : crc16 (strBytes (((("000201010212" : String) ++ "29330016A000") ++ "000677010111") ++ "006612345678")) = 33474 := crc16_extend _ _ _ _ e3 h4
  have h5 : (strBytes "952044814530").foldl crc16Byte 33474 = 35491 := by decide
  have e5 : crc16 (strBytes ((((("000201010212" : String) ++ "29330016A000") ++ "000677010111") ++ "006612345678") ++ "952044814530")) = 35491 := crc16_extend _ _ _ _ e4 h5
  have h6 : (strBytes "37645802TH59").foldl crc16Byte 35491 = 9706 := by decide
  have e6 : crc16 (strBytes (((((("000201010212" : String) ++ "29330016A000") ++ "000677010111") ++ "006612345678") ++ "952044814530") ++ "37645802TH59")) = 9706 := crc16_extend _ _ _ _ e5 h6
  have h7 : (strBytes "13GOOD SALE ").foldl crc16Byte 9706 = 10755 := by decide
  have e7 : crc16 (strBytes ((((((("000201010212" : String) ++ "29330016A000") ++ "000677010111") ++ "006612345678") ++ "952044814530") ++ "37645802TH59") ++ "13GOOD SALE ")) = 10755 := crc16_extend _ _ _ _ e6 h7
  have h8 : (strBytes "POS62120108O").foldl crc16Byte 10755 = 64892 := by decide
  have e8 : crc16 (strBytes (((((((("000201010212" : String) ++ "29330016A000") ++ "000677010111") ++ "006612345678") ++ "952044814530") ++ "37645802TH59") ++ "13GOOD SALE ") ++ "POS62120108O")) = 64892 := crc16_extend _ _ _ _ e7 h8
  have h9 : (strBytes "RDER1236304").foldl crc16Byte 64892 = 24639 := by decide
  have e9 : crc16 (strBytes ((((((((("000201010212" : String) ++ "29330016A000") ++ "000677010111") ++ "006612345678") ++ "952044814530") ++ "37645802TH59") ++ "13GOOD SALE ") ++ "POS62120108O") ++ "RDER1236304")) = 24639 := crc16_extend _ _ _ _ e8 h9
  have hW : ((((((((("000201010212" : String) ++ "29330016A000") ++ "000677010111") ++ "006612345678") ++ "952044814530") ++ "37645802TH59") ++ "13GOOD SALE ") ++ "POS62120108O") ++ "RDER1236304") = "00020101021229330016A00000067701011100661234567895204481453037645802TH5913GOOD SALE POS62120108ORDER1236304" := by decide
  rw [← hW]
  exact e9

/-- The payload of `encode(amount=0, ref1=None, ref2=None)` under the
default merchant configuration. -/
def payloadDefault0 : String :=
  "00020101021229330016A00000067701011100661234567895204481453037645802TH5913GOOD SALE POS630409FB"

/-- The payload of `encode(amount=125.50, ref1=None, ref2=None)` under
the default merchant configuration. -/
def payloadDefault125 : String :=
  "00020101021229330016A00000067701011100661234567895204481453037645406125.505802TH5913GOOD SALE POS63043FDD"

/-- The payload of `encode(amount=0, ref1="ORDER123", ref2=None)` under
the default merchant configuration. -/
def payloadOrder123 : String :=
  "00020101021229330016A00000067701011100661234567895204481453037645802TH5913GOOD SALE POS62120108ORDER1236304603F"

theorem encode_default0_eq :
    encodePayloadE initState 0 none none = some payloadDefault0 := by
  apply encodePayloadE_eq initState 0 none none
    ["000201", "010212", "29330016A0000006770101110066123456789", "52044814",
     "5303764", "5802TH", "5913GOOD SALE POS"]
    "00020101021229330016A00000067701011100661234567895204481453037645802TH5913GOOD SALE POS6304"
    payloadDefault0 2555
  · decide
  · decide
  · exact crcW0
  · decide

theorem encode_default125_eq :
    encodePayloadE initState 12550 none none = some payloadDefault125 := by
  apply encodePayloadE_eq initState 12550 none none
    ["000201", "010212", "29330016A0000006770101110066123456789", "52044814",
     "5303764", "5406125.50", "5802TH", "5913GOOD SALE POS"]
    "00020101021229330016A00000067701011100661234567895204481453037645406125.505802TH5913GOOD SALE POS6304"
    payloadDefault125 16349
  · decide
  · decide
  · exact crcW125
  · decide

theorem encode_order123_eq :
    encodePayloadE initState 0 (some "ORDER123") none = some payloadOrder123 := by
  apply encodePayloadE_eq initState 0 (some "ORDER123") none
    ["000201", "010212", "29330016A0000006770101110066123456789", "52044814",
     "5303764", "5802TH", "5913GOOD SALE POS", "62120108ORDER123"]
    "00020101021229330016A00000067701011100661234567895204481453037645802TH5913GOOD SALE POS62120108ORDER1236304"
    payloadOrder123 24639
  · decide
  · decide
  · exact crcWOrd
  · decide

theorem c1_checksum_roundtrip_witness : checksumLaw payloadDefault0 :=
  c1_checksum_roundtrip initState 0 none none payloadDefault0 encode_default0_eq

/-- C2 counterexample: a 14-digit merchant id is left untouched by
`_format_promptpay_id` — `ljust(13, '0')` never truncates — so the
result has 14 digits, not 13 as the claim requires. -/
theorem c2_normalize_counterexample :
    formatPromptpayId "12345678901234" = "12345678901234" ∧
    ¬ (formatPromptpayId "12345678901234").length = 13 := by
  decide

/-- C2 (amended): after stripping non-digit characters, a 10-digit id
becomes `"0066"` followed by its digits 2 through 10 (13 characters); a
13-digit id passes through unchanged; any other digit count is
right-padded with `'0'` to length `max count 13` — padded to exactly 13
when shorter, passed through unchanged when longer than 13. -/
theorem c2_normalize_amended (s : String) :
    ((cleanDigits s).length = 10 →
      formatPromptpayId s = "0066" ++ String.mk ((cleanDigits s).data.drop 1) ∧
      (formatPromptpayId s).length = 13) ∧
    ((cleanDigits s).length = 13 → formatPromptpayId s = cleanDigits s) ∧
    ((cleanDigits s).length ≠ 10 → (cleanDigits s).length ≠ 13 →
      formatPromptpayId s
        = cleanDigits s ++ String.mk (List.replicate (13 - (cleanDigits s).length) '0') ∧
      (formatPromptpayId s).length = max (cleanDigits s).length 13) := by
  refine ⟨fun h => ?_, fun h => ?_, fun h10 h13 => ?_⟩
  · constructor
    · unfold formatPromptpayId
      rw [if_pos h]
    · unfold formatPromptpayId
      rw [if_pos h]
      rw [strLength_append]
      show 4 + ((cleanDigits s).data.drop 1).length = 13
      rw [List.length_drop]
      have hd : (cleanDigits s).data.length = 10 := h
      omega
  · unfold formatPromptpayId
    rw [if_neg (by omega), if_pos h]
  · constructor
    · unfold formatPromptpayId
      rw [if_neg h10, if_neg h13]
    · unfold formatPromptpayId
      rw [if_neg h10, if_neg h13, strLength_append]
      show (cleanDigits s).length + (List.replicate (13 - (cleanDigits s).length) '0').length
        = max (cleanDigits s).length 13
      rw [List.length_replicate]
      omega

theorem c2_normalize_amended_witness :
    (formatPromptpayId "0812345678"
        = "0066" ++ String.mk ((cleanDigits "0812345678").data.drop 1) ∧
      (formatPromptpayId "0812345678").length = 13) ∧
    formatPromptpayId "1234567890123" = cleanDigits "1234567890123" ∧
    (formatPromptpayId "12345"
        = cleanDigits "12345" ++ String.mk (List.replicate (13 - (cleanDigits "12345").length) '0') ∧
      (formatPromptpayId "12345").length = max (cleanDigits "12345").length 13) :=
  ⟨(c2_normalize_amended "0812345678").1 (by decide),
   (c2_normalize_amended "1234567890123").2.1 (by decide),
   (c2_normalize_amended "12345").2.2 (by decide) (by decide)⟩

/-! ## Structure of the assembled parts list -/

/-- Whenever the encoder body runs to completion, the `payload_parts`
list has exactly the source's shape, with the merchant-account field a
flat concatenation of the application id and the formatted merchant
identifier. -/
theorem payloadParts_shape (st : QRPaymentManagerState) (a : Nat)
    (r1 r2 : Option String) (L : List String)
    (h : payloadParts st a r1 r2 = some L) :
    ∃ nameCs f1 f2,
      utf8Decode ((strBytes st.merchantName).take 25) = some nameCs ∧
      refSubfield "01" r1 = some f1 ∧ refSubfield "02" r2 = some f2 ∧
      L = ["000201", "010212",
           "29" ++ (twoDigits ("0016A000000677010111" ++ formatPromptpayId st.promptpayId).length
             ++ ("0016A000000677010111" ++ formatPromptpayId st.promptpayId)),
           "52044814", "5303764"]
        ++ (if a > 0 then ["54" ++ (twoDigits (formatAmount a).length ++ formatAmount a)] else [])
        ++ ["5802TH",
            "59" ++ (twoDigits ((strBytes st.merchantName).take 25).length ++ String.mk nameCs)]
        ++ (if (f1 ++ f2).isEmpty then []
            else ["62" ++ (twoDigits (String.join (f1 ++ f2)).length ++ String.join (f1 ++ f2))]) := by
  simp only [payloadParts] at h
  cases hn : utf8Decode ((strBytes st.merchantName).take 25) <;> rw [hn] at h
  · exact absurd h (by simp)
  case some nameCs =>
    cases h1 : refSubfield "01" r1 <;> rw [h1] at h
    · exact absurd h (by simp)
    case some f1 =>
      cases h2 : refSubfield "02" r2 <;> rw [h2] at h
      · exact absurd h (by simp)
      case some f2 =>
        exact ⟨nameCs, f1, f2, rfl, rfl, rfl, (Option.some.inj h).symm⟩

/-- If a string is one of the assembled parts, it occurs contiguously
in the final payload. -/
theorem encodePayload_contains (st : QRPaymentManagerState) (a : Nat)
    (r1 r2 : Option String) (p x : String)
    (h : encodePayloadE st a r1 r2 = some p)
    (hx : ∀ L, payloadParts st a r1 r2 = some L → x ∈ L) :
    ∃ pre post, p = pre ++ (x ++ post) := by
  unfold encodePayloadE at h
  cases hL : payloadParts st a r1 r2 <;> rw [hL] at h
  · exact absurd h (by simp)
  case some L =>
    have hmem := hx L hL
    have hp : (String.join L ++ "6304")
        ++ hexUpper4 (crc16 (strBytes (String.join L ++ "6304"))) = p := Option.some.inj h
    obtain ⟨pre, post, hsplit⟩ := join_mem_split x L hmem
      ("6304" ++ hexUpper4 (crc16 (strBytes (String.join L ++ "6304"))))
    exact ⟨pre, post, by rw [← hp, strAppend_assoc]; exact hsplit⟩

theorem take2_append (t s : String) (c₁ c₂ : Char) (ht : t.data = [c₁, c₂]) :
    (t ++ s).data.take 2 = [c₁, c₂] := by
  rw [strAppend_data, ht]
  rfl

theorem mem_ite_nil_singleton {c : Prop} [Decidable c] {y z : String}
    (h : y ∈ (if c then ([] : List String) else [z])) : y = z := by
  by_cases hc : c
  · rw [if_pos hc] at h
    exact absurd h (List.not_mem_nil _)
  · rw [if_neg hc] at h
    exact List.mem_singleton.mp h

theorem mem_ite_singleton_nil {c : Prop} [Decidable c] {y z : String}
    (h : y ∈ (if c then [z] else ([] : List String))) : y = z := by
  by_cases hc : c
  · rw [if_pos hc] at h
    exact List.mem_singleton.mp h
  · rw [if_neg hc] at h
    exact absurd h (List.not_mem_nil _)

theorem take2_ne_of_prefix (t s : String) (c₁ c₂ d₁ d₂ : Char) (ht : t.data = [c₁, c₂])
    (hne : ¬([c₁, c₂] = [d₁, d₂])) : (t ++ s).data.take 2 ≠ [d₁, d₂] := by
  rw [take2_append t s c₁ c₂ ht]
  exact hne

/-- With `amount = 0` the assembled parts list contains no part whose
first two characters are `"54"`. -/
theorem payloadParts_no54 (st : QRPaymentManagerState) (r1 r2 : Option String)
    (L : List String) (h : payloadParts st 0 r1 r2 = some L) :
    ∀ x ∈ L, x.data.take 2 ≠ ['5', '4'] := by
  obtain ⟨nameCs, f1, f2, hn, h1, h2, hLeq⟩ := payloadParts_shape st 0 r1 r2 L h
  subst hLeq
  rw [show (if 0 > 0 then ["54" ++ (twoDigits (formatAmount 0).length ++ formatAmount 0)]
      else ([] : List String)) = [] from rfl]
  by_cases h62 : (f1 ++ f2).isEmpty = true
  · rw [if_pos h62]
    simp only [List.nil_append, List.append_nil, List.forall_mem_append, List.forall_mem_cons]
    repeat' apply And.intro
    all_goals first
      | exact fun x hx => absurd hx (List.not_mem_nil x)
      | decide
      | exact take2_ne_of_prefix _ _ _ _ _ _ rfl (by decide)
  · rw [if_neg h62]
    simp only [List.nil_append, List.append_nil, List.forall_mem_append, List.forall_mem_cons]
    repeat' apply And.intro
    all_goals first
      | exact fun x hx => absurd hx (List.not_mem_nil x)
      | decide
      | exact take2_ne_of_prefix _ _ _ _ _ _ rfl (by decide)

/-- With both references absent the assembled parts list contains no
part whose first two characters are `"62"`. -/
theorem payloadParts_no62 (st : QRPaymentManagerState) (a : Nat)
    (L : List String) (h : payloadParts st a none none = some L) :
    ∀ x ∈ L, x.data.take 2 ≠ ['6', '2'] := by
  obtain ⟨nameCs, f1, f2, hn, h1, h2, hLeq⟩ := payloadParts_shape st a none none L h
  have hf1 : ([] : List String) = f1 := Option.some.inj h1
  have hf2 : ([] : List String) = f2 := Option.some.inj h2
  subst hLeq
  cases hf1
  cases hf2
  simp only [List.nil_append, List.isEmpty_nil]
  rw [if_pos trivial]
  by_cases ha : 0 < a
  · rw [if_pos ha]
    simp only [List.nil_append, List.append_nil, List.forall_mem_append, List.forall_mem_cons]
    repeat' apply And.intro
    all_goals first
      | exact fun x hx => absurd hx (List.not_mem_nil x)
      | decide
      | exact take2_ne_of_prefix _ _ _ _ _ _ rfl (by decide)
  · rw [if_neg ha]
    simp only [List.nil_append, List.append_nil, List.forall_mem_append, List.forall_mem_cons]
    repeat' apply And.intro
    all_goals first
      | exact fun x hx => absurd hx (List.not_mem_nil x)
      | decide
      | exact take2_ne_of_prefix _ _ _ _ _ _ rfl (by decide)

/-- C3 counterexample: under the default configuration the encoded
payload does not contain the claimed sub-tag-01 wrapping of the
formatted merchant identifier (`"0113" + id`), nor the tag-29 field the
claim would imply; the inner value is the application id followed
directly by the bare formatted identifier. -/
theorem c3_merchant_info_counterexample :
    encodePayloadE initState 0 none none = some payloadDefault0 ∧
    infixOf ("01130066123456789").data payloadDefault0.data = false ∧
    infixOf ("29370016A00000067701011101130066123456789").data payloadDefault0.data = false :=
  ⟨encode_default0_eq, by decide, by decide⟩

/-- C3 (amended): in every encoded payload the Merchant Account
Information field is the outer tag `29` whose two length digits are the
length of its assembled inner value, and whose inner value is the
application-identifier sub-field (`00`, length `16`,
`A000000677010111`) followed directly by the formatted merchant
identifier appended raw — with no sub-tag-`01` wrapper and no inner
length digits for the identifier. -/
theorem c3_merchant_info_amended (st : QRPaymentManagerState) (a : Nat)
    (r1 r2 : Option String) (p : String)
    (h : encodePayloadE st a r1 r2 = some p) :
    ∃ pre post, p = pre ++ (("29"
      ++ (twoDigits ("0016A000000677010111" ++ formatPromptpayId st.promptpayId).length
        ++ ("0016A000000677010111" ++ formatPromptpayId st.promptpayId))) ++ post) := by
  apply encodePayload_contains st a r1 r2 p _ h
  intro L hL
  obtain ⟨nameCs, f1, f2, hn, h1, h2, hLeq⟩ := payloadParts_shape st a r1 r2 L hL
  subst hLeq
  simp [List.mem_append]

theorem c3_merchant_info_amended_witness :
    ∃ pre post, payloadDefault0 = pre ++ (("29"
      ++ (twoDigits ("0016A000000677010111" ++ formatPromptpayId initState.promptpayId).length
        ++ ("0016A000000677010111" ++ formatPromptpayId initState.promptpayId))) ++ post) :=
  c3_merchant_info_amended initState 0 none none payloadDefault0 encode_default0_eq

/-- C4 counterexample: at `amount = 125.5` the encoded value
`"125.50"` has six characters, so the emitted field is
`"54" + "06" + "125.50"`; the claimed substring `"54" + "05" + "125.50"`
does not occur in the payload. -/
theorem c4_amount_field_counterexample :
    encodePayloadE initState 12550 none none = some payloadDefault125 ∧
    infixOf ("5405125.50").data payloadDefault125.data = false :=
  ⟨encode_default125_eq, by decide⟩

/-- C4 (amended): for `amount = 0` no part of the payload is a tag-54
field; for every `amount > 0` the payload contains the tag-54 field
whose value is the two-decimal rendering of the amount and whose two
length digits are the character count of that value; in particular, for
`amount = 125.5` the payload contains `"54" + "06" + "125.50"` (the
value `"125.50"` has six characters, not five). -/
theorem c4_amount_field_amended :
    (∀ st r1 r2 L, payloadParts st 0 r1 r2 = some L →
      ∀ x ∈ L, x.data.take 2 ≠ ['5', '4']) ∧
    (∀ st a r1 r2 p, 0 < a → encodePayloadE st a r1 r2 = some p →
      ∃ pre post,
        p = pre ++ (("54" ++ (twoDigits (formatAmount a).length ++ formatAmount a)) ++ post)) ∧
    (encodePayloadE initState 12550 none none = some payloadDefault125 ∧
     infixOf ("5406125.50").data payloadDefault125.data = true) := by
  refine ⟨payloadParts_no54, ?_, encode_default125_eq, by decide⟩
  intro st a r1 r2 p ha h
  apply encodePayload_contains st a r1 r2 p _ h
  intro L hL
  obtain ⟨nameCs, f1, f2, hn, h1, h2, hLeq⟩ := payloadParts_shape st a r1 r2 L hL
  subst hLeq
  rw [if_pos ha]
  simp [List.mem_append]

theorem c4_amount_field_amended_witness :
    ("000201" : String).data.take 2 ≠ ['5', '4'] ∧
    (∃ pre post, payloadDefault125
      = pre ++ (("54" ++ (twoDigits (formatAmount 12550).length ++ formatAmount 12550)) ++ post)) :=
  ⟨c4_amount_field_amended.1 initState none none
      ["000201", "010212", "29330016A0000006770101110066123456789", "52044814",
       "5303764", "5802TH", "5913GOOD SALE POS"] (by decide) "000201" (by decide),
   c4_amount_field_amended.2.1 initState 12550 none none payloadDefault125
      (by decide) encode_default125_eq⟩

/-- C6: with `ref1 = "ORDER123"` and `ref2 = None` the payload contains
the tag-62 field whose inner content is exactly `"01" + "08" +
"ORDER123"` (so no sub-tag `02`), and with both references absent no
part of the payload is a tag-62 field. -/
theorem c6_additional_data_field :
    (∀ st a p, encodePayloadE st a (some "ORDER123") none = some p →
      ∃ pre post, p = pre ++ (("62" ++ ("12" ++ "0108ORDER123")) ++ post)) ∧
    (∀ st a L, payloadParts st a none none = some L →
      ∀ x ∈ L, x.data.take 2 ≠ ['6', '2']) := by
  refine ⟨?_, fun st a L h => payloadParts_no62 st a L h⟩
  intro st a p h
  apply encodePayload_contains st a (some "ORDER123") none p _ h
  intro L hL
  obtain ⟨nameCs, f1, f2, hn, h1, h2, hLeq⟩ := payloadParts_shape st a (some "ORDER123") none L hL
  have hf1 : (["0108ORDER123"] : List String) = f1 := Option.some.inj h1
  have hf2 : ([] : List String) = f2 := Option.some.inj h2
  subst hLeq
  cases hf1
  cases hf2
  simp only [List.append_nil, List.isEmpty_cons, Bool.false_eq_true, if_false]
  rw [show ("62" ++ (twoDigits (String.join [("0108ORDER123" : String)]).length
      ++ String.join [("0108ORDER123" : String)])) = "62" ++ ("12" ++ "0108ORDER123") from by decide]
  simp [List.mem_append]

theorem c6_additional_data_field_witness :
    (∃ pre post, payloadOrder123 = pre ++ (("62" ++ ("12" ++ "0108ORDER123")) ++ post)) ∧
    ("000201" : String).data.take 2 ≠ ['6', '2'] :=
  ⟨c6_additional_data_field.1 initState 0 payloadOrder123 encode_order123_eq,
   c6_additional_data_field.2 initState 0
     ["000201", "010212", "29330016A0000006770101110066123456789", "52044814",
      "5303764", "5802TH", "5913GOOD SALE POS"] (by decide) "000201" (by decide)⟩

/-- C5: evaluation at the failing input.  A merchant name of thirteen
`é` characters encodes to 26 UTF-8 bytes; the source's byte slice
`[:25]` cuts the last two-byte code point in half, the subsequent
`bytes.decode('utf-8')` raises instead of truncating at a safe
boundary, and the catch-all handler turns the whole payload into `""`.
No 25-byte truncated field is ever emitted. -/
def stBadName : QRPaymentManagerState :=
  { promptpayId := "0123456789", merchantName := "ééééééééééééé",
    pendingPayments := [] }

/-- C5: evaluation of the encoder at the failing merchant name. -/
theorem c5_truncation_bug_eval :
    encodePayloadE stBadName 0 none none = none ∧
    createPromptpayPayload stBadName 0 none none = "" := by
  decide

/-- C7 counterexample: for `ref1` of thirteen Greek letters (26 UTF-8
bytes) the 25-byte slice splits the final code point, so an internal
error occurs, yet `_create_promptpay_payload` returns the substitute
value `""` to its caller instead of raising. -/
theorem c7_error_swallowed_counterexample :
    encodePayloadE initState 0 (some "αβγδεζηθικλμν") none = none ∧
    createPromptpayPayload initState 0 (some "αβγδεζηθικλμν") none = "" := by
  decide

/-- C7 (amended): the encoder itself never raises: when the body
succeeds its payload is returned unchanged, and when the body fails the
`except` handler catches the error and returns the empty string in its
place. -/
theorem c7_error_handling_amended (st : QRPaymentManagerState) (a : Nat)
    (r1 r2 : Option String) :
    (∀ p, encodePayloadE st a r1 r2 = some p → createPromptpayPayload st a r1 r2 = p) ∧
    (encodePayloadE st a r1 r2 = none → createPromptpayPayload st a r1 r2 = "") := by
  constructor
  · intro p hp
    unfold createPromptpayPayload
    rw [hp]
  · intro hn
    unfold createPromptpayPayload
    rw [hn]

theorem c7_error_handling_amended_witness :
    createPromptpayPayload initState 0 none none = payloadDefault0 ∧
    createPromptpayPayload initState 0 (some "αβγδεζηθικλμν") none = "" :=
  ⟨(c7_error_handling_amended initState 0 none none).1 payloadDefault0 encode_default0_eq,
   (c7_error_handling_amended initState 0 (some "αβγδεζηθικλμν") none).2 (by decide)⟩

/-- C8: determinism and state-independence: the payload is a function
of the amount, the references, the merchant id and the merchant name
alone; two manager states agreeing on id and name — whatever their
pending-payment stores — produce byte-identical payloads on identical
arguments. -/
theorem c8_deterministic (s1 s2 : QRPaymentManagerState) (a : Nat) (r1 r2 : Option String)
    (hid : s1.promptpayId = s2.promptpayId) (hname : s1.merchantName = s2.merchantName) :
    createPromptpayPayload s1 a r1 r2 = createPromptpayPayload s2 a r1 r2 := by
  obtain ⟨i1, n1, pp1⟩ := s1
  obtain ⟨i2, n2, pp2⟩ := s2
  have h1 : i1 = i2 := hid
  have h2 : n1 = n2 := hname
  subst h1
  subst h2
  rfl

/-- A pending-payment record used to exhibit state-independence. -/
def someRecord : PaymentRecord :=
  { paymentId := "p1", amount := 100, ref1 := none, ref2 := none, payload := "x",
    status := "pending", createdAt := "2026-01-01T00:00:00",
    expiresAt := "2026-01-01T00:15:00" }

/-- The default state with one pending payment stored, to exhibit
independence from the mutable store. -/
def stWithPending : QRPaymentManagerState :=
  { promptpayId := "0123456789", merchantName := "GOOD SALE POS",
    pendingPayments := [("p1", someRecord)] }

theorem c8_deterministic_witness :
    createPromptpayPayload initState 0 none none
      = createPromptpayPayload stWithPending 0 none none :=
  c8_deterministic initState stWithPending 0 none none rfl rfl

/-- C9: references supplied as empty strings are treated exactly like
absent references — Python's `if ref1:` is false for both `None` and
`""` — so the parts list and the payload coincide with the
both-absent case and no tag-62 field (in particular no zero-length
sub-field) is emitted. -/
theorem c9_empty_refs (st : QRPaymentManagerState) (a : Nat) :
    payloadParts st a (some "") (some "") = payloadParts st a none none ∧
    encodePayloadE st a (some "") (some "") = encodePayloadE st a none none := by
  have h : payloadParts st a (some "") (some "") = payloadParts st a none none := rfl
  refine ⟨h, ?_⟩
  unfold encodePayloadE
  rw [h]

/-- C10: cancelling a payment whose status is `'completed'` returns
`{'success': False}` and leaves the manager state — in particular the
stored payment record — entirely unchanged. -/
theorem c10_cancel_completed (st : QRPaymentManagerState) (pid now : String)
    (pd : PaymentRecord) (hfind : alookup pid st.pendingPayments = some pd)
    (hdone : pd.status = "completed") :
    (cancelPayment st pid now).1.success = false ∧ (cancelPayment st pid now).2 = st := by
  unfold cancelPayment
  simp only [hfind]
  rw [if_pos hdone]
  exact ⟨rfl, rfl⟩

/-- A completed payment record. -/
def completedRecord : PaymentRecord :=
  { paymentId := "p1", amount := 1070, ref1 := some "TEST-001", ref2 := none,
    payload := "x", status := "completed", createdAt := "t0", expiresAt := "t1",
    verifiedAt := some "t2" }

/-- A manager state holding one completed payment. -/
def stWithCompleted : QRPaymentManagerState :=
  { promptpayId := "0123456789", merchantName := "GOOD SALE POS",
    pendingPayments := [("p1", completedRecord)] }

theorem c10_cancel_completed_witness :
    (cancelPayment stWithCompleted "p1" "t3").1.success = false ∧
    (cancelPayment stWithCompleted "p1" "t3").2 = stWithCompleted :=
  c10_cancel_completed stWithCompleted "p1" "t3" completedRecord (by decide) (by decide)
